import Mathlib

/-!
Verification development for the budget-tracker client core.

The embedding below translates the client components into pure Lean
functions:

* the AuthContext provider (token lifecycle, header construction) becomes
  a small state machine on `AuthState` together with an explicit
  local-storage slot `TokenStorage`;
* the BudgetTracker component state becomes `StoreState`; each async
  fetch or mutation is split at its await boundary into a pure
  completion handler that takes the state at completion time and the
  classified network result, and returns the next state (plus, for
  mutations, the observable pre-response snapshot and whether a summary
  refetch was triggered);
* decimal amounts are modelled as exact rationals.
-/

namespace BudgetApp

/-- The Amount field of a transaction is string or number in the source. -/
inductive AmountVal
  | str (s : String)
  | num (q : ℚ)
deriving DecidableEq, Repr

/-- One transaction row as held in component state. The field
transactionName stands for the source key Transaction Name and
accountType for Account Type. -/
structure Transaction where
  ID : Nat
  Date : String
  transactionName : String
  Category : String
  Amount : AmountVal
  accountType : String
deriving DecidableEq, Repr

/-- Per-category summary as delivered by the remote service. -/
structure CategorySummary where
  spent : ℚ
  budget : ℚ
  remaining : ℚ
  percentage_used : ℚ
  transactions_count : Nat
  over_budget : Bool
deriving DecidableEq, Repr

/-- The summary object: category name to CategorySummary, kept as an
association list in object insertion order. -/
abbrev Summary := List (String × CategorySummary)

/-- Budgets object: category name to limit. -/
abbrev Budgets := List (String × ℚ)

/-- Derived totals record. -/
structure Totals where
  totalSpent : ℚ
  totalBudget : ℚ
  remaining : ℚ
deriving DecidableEq, Repr

/-- The useState fields of the BudgetTracker component that the fetch
and mutation logic touches. -/
structure StoreState where
  currentMonth : String
  summary : Summary
  transactions : List Transaction
  budgets : Budgets
  availableMonths : List String
  loading : Bool
  editingBudgets : Bool
  tempBudgets : Budgets
  editingTransaction : Option Nat
deriving DecidableEq, Repr

/-- Models new Date then toISOString then slice of 0 to 7: the first
seven characters of the ISO timestamp, which is the YYYY-MM month key. -/
def isoSlice7 (iso : String) : String :=
  String.mk (iso.data.take 7)

/-- The initial component state: currentMonth is initialized from the
current date via the seven-character ISO slice; all collections start
empty and no edit is in progress. -/
def initState (nowIso : String) : StoreState :=
  { currentMonth := isoSlice7 nowIso
    summary := []
    transactions := []
    budgets := []
    availableMonths := []
    loading := false
    editingBudgets := false
    tempBudgets := []
    editingTransaction := none }

/-- Classified failure of a read request: non-2xx status, transport
failure, or a body that fails to parse. -/
inductive FetchError
  | httpStatus (code : Nat)
  | network (msg : String)
  | malformed
deriving DecidableEq, Repr

/-- Completion handler of fetchSummary: on success the summary object is
stored and loading is cleared; on any failure only loading is cleared
(the catch block merely logs). The month the request was issued for is
used only in the request URL; the handler does not consult it. -/
def applySummaryResult (s : StoreState) (requestedMonth : String)
    (r : Except FetchError Summary) : StoreState :=
  match r with
  | .ok data => { s with summary := data, loading := false }
  | .error _ => { s with loading := false }

/-- Completion handler of fetchTransactions: on success the list is
stored; on failure the state is untouched. The requested month is used
only in the URL. -/
def applyTransactionsResult (s : StoreState) (requestedMonth : String)
    (r : Except FetchError (List Transaction)) : StoreState :=
  match r with
  | .ok data => { s with transactions := data }
  | .error _ => s

/-- Completion handler of fetchBudgets: on success both the confirmed
map and the draft map are set to the fetched data; on failure the state
is untouched. -/
def applyBudgetsResult (s : StoreState)
    (r : Except FetchError Budgets) : StoreState :=
  match r with
  | .ok data => { s with budgets := data, tempBudgets := data }
  | .error _ => s

/-- Completion handler of fetchAvailableMonths: on success the list is
stored, and if currentMonth is the empty string while the list is
nonempty, currentMonth is set to the first (newest) element; on failure
the state is untouched. -/
def applyMonthsResult (s : StoreState)
    (r : Except FetchError (List String)) : StoreState :=
  match r with
  | .ok data =>
      let s1 := { s with availableMonths := data }
      match data with
      | [] => s1
      | d :: _ => if s.currentMonth = "" then { s1 with currentMonth := d } else s1
  | .error _ => s

/-- Selecting a month from the dropdown sets currentMonth; the effect
keyed on currentMonth then re-issues the month-scoped fetches. -/
def selectMonth (s : StoreState) (month : String) : StoreState :=
  { s with currentMonth := month }

/-- calculateTotals folds the values of the summary object: total spent,
total budget, and remaining as their difference. -/
def calculateTotals (summaryData : Summary) : Totals :=
  let totalSpent := (summaryData.map Prod.snd).foldl (fun acc c => acc + c.spent) 0
  let totalBudget := (summaryData.map Prod.snd).foldl (fun acc c => acc + c.budget) 0
  { totalSpent := totalSpent
    totalBudget := totalBudget
    remaining := totalBudget - totalSpent }

/-- Outcome of a mutation request: non-2xx response, transport failure,
or a 2xx response carrying a success flag. -/
inductive MutationResult
  | httpError (code : Nat)
  | networkError (msg : String)
  | okFlag (success : Bool)
deriving DecidableEq, Repr

/-- Result of running updateTransactionCategory to completion:
preResponse is the transaction list observable between dispatching the
request and receiving the response, final is the state after the
response is handled, and summaryRefetch records whether fetchSummary
for the current month was triggered. -/
structure UpdateOutcome where
  preResponse : List Transaction
  final : StoreState
  summaryRefetch : Bool
deriving DecidableEq, Repr

/-- updateTransactionCategory: the source performs no state update
before awaiting the response, so the pre-response snapshot is the input
list. Only when the response is 2xx and its success flag is true does
it map the new category over the matching ID, clear the row edit state,
and trigger a summary refetch; every other outcome leaves the state
unchanged (the catch block only logs and alerts). -/
def updateTransactionCategory (s : StoreState) (transactionId : Nat)
    (newCategory : String) (r : MutationResult) : UpdateOutcome :=
  match r with
  | .okFlag true =>
      { preResponse := s.transactions
        final := { s with
          transactions := s.transactions.map (fun t =>
            if t.ID = transactionId then { t with Category := newCategory } else t)
          editingTransaction := none }
        summaryRefetch := true }
  | _ => { preResponse := s.transactions, final := s, summaryRefetch := false }

/-- Result of running saveBudgets to completion, recording how many
summary refetches were triggered. -/
structure SaveOutcome where
  final : StoreState
  summaryRefetchCount : Nat
deriving DecidableEq, Repr

/-- saveBudgets sends the draft map; when the response is 2xx with a
true success flag it copies the draft into the confirmed map, exits
edit mode, and triggers one summary refetch; every other outcome leaves
the state, including the draft, unchanged. -/
def saveBudgets (s : StoreState) (r : MutationResult) : SaveOutcome :=
  match r with
  | .okFlag true =>
      { final := { s with budgets := s.tempBudgets, editingBudgets := false }
        summaryRefetchCount := 1 }
  | _ => { final := s, summaryRefetchCount := 0 }

/-- getProgressColor classifies a percentage into the three bar colors. -/
def getProgressColor (percentage : ℚ) : String :=
  if percentage ≤ 70 then "bg-green-500"
  else if percentage ≤ 90 then "bg-yellow-500"
  else "bg-red-500"

/-- The icon getStatusIcon renders: the alert icon or the check icon. -/
inductive StatusIconKind
  | alertCircle
  | checkCircle
deriving DecidableEq, Repr

/-- getStatusIcon shows the alert icon exactly when over_budget. -/
def getStatusIcon (data : CategorySummary) : StatusIconKind :=
  if data.over_budget then .alertCircle else .checkCircle

/-- Abstract severity classification of a category. -/
inductive Status
  | OnTrack
  | Approaching
  | AtOrOverLimit
deriving DecidableEq, Repr

/-- The joint classification induced by the two view helpers: the
over-budget alert icon dominates, otherwise the bar color bands of
getProgressColor decide. -/
def statusOf (data : CategorySummary) : Status :=
  if getStatusIcon data = .alertCircle then .AtOrOverLimit
  else if getProgressColor data.percentage_used = "bg-green-500" then .OnTrack
  else if getProgressColor data.percentage_used = "bg-yellow-500" then .Approaching
  else .AtOrOverLimit

/-- Numeric severity rank of a status. -/
def severity : Status → Nat
  | .OnTrack => 0
  | .Approaching => 1
  | .AtOrOverLimit => 2

/-- In-memory session state of the AuthContext provider. -/
structure AuthState where
  isAuthenticated : Bool
  token : Option String
deriving DecidableEq, Repr

/-- Initial provider state: unauthenticated, no token. -/
def initAuth : AuthState := { isAuthenticated := false, token := none }

/-- The localStorage slot under the access_token key; none means the
key is absent. -/
abbrev TokenStorage := Option String

/-- The mount effect: reads the persisted token and, when it is truthy
in the JS sense (non-null and nonempty), adopts it and authenticates;
otherwise the state is left as is. Pure in the storage value: no
network request is made. -/
def restore (s : AuthState) (stored : TokenStorage) : AuthState :=
  match stored with
  | some t => if t = "" then s else { isAuthenticated := true, token := some t }
  | none => s

/-- login persists the new token and moves to the authenticated state,
whatever the previous state was. -/
def login (s : AuthState) (stored : TokenStorage) (newToken : String) :
    AuthState × TokenStorage :=
  ({ isAuthenticated := true, token := some newToken }, some newToken)

/-- logout erases the persisted token, nulls the in-memory token, and
moves to the unauthenticated state, whatever the previous state was. -/
def logout (s : AuthState) (stored : TokenStorage) : AuthState × TokenStorage :=
  ({ isAuthenticated := false, token := none }, none)

/-- getAuthHeaders builds the outbound header list: always the content
type, plus the bearer line exactly when the token is truthy in the JS
sense (non-null and nonempty). It reads the state and touches nothing. -/
def getAuthHeaders (s : AuthState) : List (String × String) :=
  let headers := [("Content-Type", "application/json")]
  match s.token with
  | some t => if t = "" then headers else headers ++ [("Authorization", "Bearer " ++ t)]
  | none => headers

/-- Events the provider reacts to. -/
inductive AuthEvent
  | loginEv (t : String)
  | logoutEv
  | restoreEv
deriving DecidableEq, Repr

/-- One provider step over in-memory state and the storage slot. -/
def stepAuth : AuthState × TokenStorage → AuthEvent → AuthState × TokenStorage
  | (s, st), .loginEv t => login s st t
  | (s, st), .logoutEv => logout s st
  | (s, st), .restoreEv => (restore s st, st)

/-- A session run: the provider starts unauthenticated over an
arbitrary persisted slot and processes a list of events. -/
def runAuth (st0 : TokenStorage) (evs : List AuthEvent) : AuthState × TokenStorage :=
  evs.foldl stepAuth (initAuth, st0)

/-- Example transaction with ID 7 in category Shopping. -/
def exTx7 : Transaction :=
  { ID := 7
    Date := "2024-02-01"
    transactionName := "Mall purchase"
    Category := "Shopping"
    Amount := .num 20
    accountType := "TD" }

/-- Example state holding just the transaction with ID 7. -/
def exState1 : StoreState :=
  { initState "2024-02-15T00:00:00.000Z" with transactions := [exTx7] }

/-- Example summary payload for month 2024-02. -/
def exSummaryFeb : Summary :=
  [("Groceries",
    { spent := 120
      budget := 300
      remaining := 180
      percentage_used := 40
      transactions_count := 4
      over_budget := false })]

/-- Example category summary, on track at fifty percent. -/
def exCatOnTrack : CategorySummary :=
  { spent := 50
    budget := 100
    remaining := 50
    percentage_used := 50
    transactions_count := 2
    over_budget := false }

/-- Example category summary, approaching at eighty percent. -/
def exCatApproaching : CategorySummary :=
  { spent := 80
    budget := 100
    remaining := 20
    percentage_used := 80
    transactions_count := 3
    over_budget := false }

theorem foldl_add_map (f : CategorySummary → ℚ) (a : ℚ) (l : List CategorySummary) :
    l.foldl (fun acc c => acc + f c) a = a + (l.map f).sum := by
  induction l generalizing a with
  | nil => simp
  | cons c cs ih => simp [ih, add_assoc]

/-- C3: the derived totals are the sums of spent and budget over all
categories of the summary mapping, remaining is their difference, and
the result is invariant under reordering of the entries. -/
theorem calculateTotals_spec (l l2 : Summary) (hp : l.Perm l2) :
    (calculateTotals l).totalSpent = ((l.map Prod.snd).map CategorySummary.spent).sum
    ∧ (calculateTotals l).totalBudget = ((l.map Prod.snd).map CategorySummary.budget).sum
    ∧ (calculateTotals l).remaining = (calculateTotals l).totalBudget - (calculateTotals l).totalSpent
    ∧ calculateTotals l = calculateTotals l2 := by
  have hsum : ∀ (m : Summary) (f : CategorySummary → ℚ),
      (m.map Prod.snd).foldl (fun acc c => acc + f c) 0 = ((m.map Prod.snd).map f).sum := by
    intro m f
    rw [foldl_add_map, zero_add]
  have hspent : ((l.map Prod.snd).map CategorySummary.spent).sum
      = ((l2.map Prod.snd).map CategorySummary.spent).sum :=
    List.Perm.sum_eq ((hp.map Prod.snd).map CategorySummary.spent)
  have hbudget : ((l.map Prod.snd).map CategorySummary.budget).sum
      = ((l2.map Prod.snd).map CategorySummary.budget).sum :=
    List.Perm.sum_eq ((hp.map Prod.snd).map CategorySummary.budget)
  refine ⟨hsum l CategorySummary.spent, hsum l CategorySummary.budget, rfl, ?_⟩
  simp only [calculateTotals, hsum, hspent, hbudget]

/-- Witness for C3 at a concrete two-entry summary and its swap. -/
theorem calculateTotals_spec_witness :
    calculateTotals [("Groceries", exCatOnTrack), ("Dining", exCatApproaching)]
      = calculateTotals [("Dining", exCatApproaching), ("Groceries", exCatOnTrack)] :=
  (calculateTotals_spec
    [("Groceries", exCatOnTrack), ("Dining", exCatApproaching)]
    [("Dining", exCatApproaching), ("Groceries", exCatOnTrack)]
    (List.Perm.swap _ _ _)).2.2.2

/-- C1 counterexample: editing the category of transaction 7 from
Shopping to Dining does not change the in-memory list before server
confirmation; the pre-response snapshot still reads Shopping, so the
update is not applied optimistically. -/
theorem updateTransactionCategory_not_optimistic_cex :
    (updateTransactionCategory exState1 7 "Dining & Restaurants"
        (.networkError "net down")).preResponse = [exTx7]
    ∧ exTx7.Category = "Shopping"
    ∧ ¬ ((updateTransactionCategory exState1 7 "Dining & Restaurants"
        (.networkError "net down")).preResponse.map Transaction.Category
          = ["Dining & Restaurants"]) := by
  refine ⟨rfl, rfl, ?_⟩
  decide

/-- C1 amended: updateTransactionCategory is pessimistic, not
optimistic. The in-memory list is unchanged between dispatching the
request and the response (the pre-response snapshot equals the input
list), every failing outcome leaves the state unchanged so the prior
confirmed category remains, and only a confirmed success applies the
category change and triggers a summary refetch for the current month. -/
theorem updateTransactionCategory_amended (s : StoreState) (tid : Nat)
    (cat : String) (code : Nat) (msg : String) :
    (updateTransactionCategory s tid cat (.okFlag true)).preResponse = s.transactions
    ∧ (updateTransactionCategory s tid cat (.okFlag false)).preResponse = s.transactions
    ∧ (updateTransactionCategory s tid cat (.httpError code)).preResponse = s.transactions
    ∧ (updateTransactionCategory s tid cat (.networkError msg)).preResponse = s.transactions
    ∧ (updateTransactionCategory s tid cat (.httpError code)).final = s
    ∧ (updateTransactionCategory s tid cat (.httpError code)).summaryRefetch = false
    ∧ (updateTransactionCategory s tid cat (.networkError msg)).final = s
    ∧ (updateTransactionCategory s tid cat (.networkError msg)).summaryRefetch = false
    ∧ (updateTransactionCategory s tid cat (.okFlag false)).final = s
    ∧ (updateTransactionCategory s tid cat (.okFlag false)).summaryRefetch = false
    ∧ (updateTransactionCategory s tid cat (.okFlag true)).final.transactions
        = s.transactions.map (fun t => if t.ID = tid then { t with Category := cat } else t)
    ∧ (updateTransactionCategory s tid cat (.okFlag true)).summaryRefetch = true :=
  ⟨rfl, rfl, rfl, rfl, rfl, rfl, rfl, rfl, rfl, rfl, rfl, rfl⟩

/-- C2 counterexample: after selecting 2024-02 and then 2024-03, the
stale completion of the 2024-02 summary fetch is still applied even
though 2024-02 is no longer the current selection: the summary becomes
the 2024-02 payload instead of remaining the pending empty state. -/
theorem staleFetch_overwrites_cex :
    (applySummaryResult
        (selectMonth (selectMonth (initState "2024-01-15T00:00:00.000Z") "2024-02") "2024-03")
        "2024-02" (.ok exSummaryFeb)).currentMonth = "2024-03"
    ∧ ("2024-02" : String) ≠ "2024-03"
    ∧ (applySummaryResult
        (selectMonth (selectMonth (initState "2024-01-15T00:00:00.000Z") "2024-02") "2024-03")
        "2024-02" (.ok exSummaryFeb)).summary = exSummaryFeb
    ∧ (selectMonth (selectMonth (initState "2024-01-15T00:00:00.000Z") "2024-02") "2024-03").summary = []
    ∧ exSummaryFeb ≠ ([] : Summary) := by
  refine ⟨rfl, ?_, rfl, rfl, ?_⟩ <;> decide

/-- C2 amended: completion handlers for Summary and Transactions apply
their payload unconditionally; the month the request was issued for is
never compared with the current selection, so whichever response
completes last wins, stale or not. -/
theorem fetchApply_unconditional (s : StoreState) (m : String)
    (ds : Summary) (dt : List Transaction) :
    (applySummaryResult s m (.ok ds)).summary = ds
    ∧ (applySummaryResult s m (.ok ds)).currentMonth = s.currentMonth
    ∧ (applyTransactionsResult s m (.ok dt)).transactions = dt
    ∧ (applyTransactionsResult s m (.ok dt)).currentMonth = s.currentMonth :=
  ⟨rfl, rfl, rfl, rfl⟩

theorem statusOf_eq (d : CategorySummary) :
    statusOf d =
      if d.over_budget then Status.AtOrOverLimit
      else if d.percentage_used ≤ 70 then Status.OnTrack
      else if d.percentage_used ≤ 90 then Status.Approaching
      else Status.AtOrOverLimit := by
  unfold statusOf getStatusIcon getProgressColor
  cases hb : d.over_budget <;> simp [hb] <;> (try split_ifs) <;> simp_all

/-- C4: the joint classification of the view helpers puts a category on
track at or below seventy percent, approaching between seventy and
ninety, and at or over the limit above ninety or whenever over_budget
is set; it is monotone in the percentage at a fixed over-budget flag,
and the boundary values seventy and ninety fall in the lower band. -/
theorem statusOf_spec (d : CategorySummary) (p1 p2 : ℚ) (hlt : p1 < p2) :
    (d.over_budget = false → d.percentage_used ≤ 70 → statusOf d = Status.OnTrack)
    ∧ (d.over_budget = false → 70 < d.percentage_used → d.percentage_used ≤ 90 →
        statusOf d = Status.Approaching)
    ∧ (90 < d.percentage_used → statusOf d = Status.AtOrOverLimit)
    ∧ (d.over_budget = true → statusOf d = Status.AtOrOverLimit)
    ∧ severity (statusOf { d with percentage_used := p1 })
        ≤ severity (statusOf { d with percentage_used := p2 })
    ∧ statusOf { d with percentage_used := 70, over_budget := false } = Status.OnTrack
    ∧ statusOf { d with percentage_used := 90, over_budget := false } = Status.Approaching := by
  refine ⟨?_, ?_, ?_, ?_, ?_, ?_, ?_⟩
  · intro hb hle
    rw [statusOf_eq]
    simp [hb, hle]
  · intro hb h1 h2
    rw [statusOf_eq]
    simp [hb, h2, not_le.mpr h1]
  · intro h
    rw [statusOf_eq]
    cases hb : d.over_budget <;> simp [hb, not_le.mpr (by linarith : (70:ℚ) < d.percentage_used), not_le.mpr h]
  · intro hb
    rw [statusOf_eq]
    simp [hb]
  · rw [statusOf_eq, statusOf_eq]
    cases hb : d.over_budget <;> simp [hb, severity]
    split_ifs <;> simp [severity] <;> linarith
  · rw [statusOf_eq]
    norm_num
  · rw [statusOf_eq]
    norm_num

/-- Witness for C4 at a concrete on-track category and percentages
fifty and eighty. -/
theorem statusOf_spec_witness : statusOf exCatOnTrack = Status.OnTrack :=
  (statusOf_spec exCatOnTrack 50 80 (by norm_num)).1 rfl (by decide)

theorem isoSlice7_ne_empty (iso : String) (h : iso ≠ "") : isoSlice7 iso ≠ "" := by
  cases iso with
  | mk l =>
    cases l with
    | nil => exact absurd rfl h
    | cons c cs => simp [isoSlice7, String.ext_iff]

/-- C5 counterexample: on a session started in July 2025 with no month
ever explicitly selected, the first successful months fetch does not
move the selection to the newest available month, because the guard
requires the empty string while the initializer set the current date
month. -/
theorem autoSelect_never_fires_cex :
    (applyMonthsResult (initState "2025-07-15T10:30:00.000Z")
        (.ok ["2024-03", "2024-02"])).currentMonth = "2025-07"
    ∧ ("2025-07" : String) ≠ "2024-03"
    ∧ ¬ ((applyMonthsResult (initState "2025-07-15T10:30:00.000Z")
        (.ok ["2024-03", "2024-02"])).currentMonth = "2024-03") := by
  refine ⟨?_, ?_, ?_⟩ <;> decide

/-- C5 amended: the auto-selection in the months completion handler
fires only when currentMonth is the empty string and the fetched list
is nonempty, in which case it picks the first (newest) element; since
the initializer sets currentMonth to the nonempty seven-character date
slice, the guard never holds in a real session and no selection,
explicit or default, is ever overridden. -/
theorem autoSelect_amended (s : StoreState) (iso : String) (data : List String)
    (d : String) (rest : List String) (h : s.currentMonth ≠ "") (hiso : iso ≠ "") :
    (applyMonthsResult s (.ok data)).availableMonths = data
    ∧ (applyMonthsResult s (.ok data)).currentMonth = s.currentMonth
    ∧ (initState iso).currentMonth ≠ ""
    ∧ (applyMonthsResult { s with currentMonth := "" } (.ok (d :: rest))).currentMonth = d := by
  refine ⟨?_, ?_, isoSlice7_ne_empty iso hiso, ?_⟩
  · cases data with
    | nil => rfl
    | cons d0 rest0 =>
      simp only [applyMonthsResult]
      split_ifs <;> rfl
  · cases data with
    | nil => rfl
    | cons d0 rest0 =>
      simp only [applyMonthsResult]
      rw [if_neg h]
  · simp [applyMonthsResult]

/-- Witness for C5 at a concrete state with the empty current month and
a concrete months payload. -/
theorem autoSelect_amended_witness :
    (applyMonthsResult { (initState "2024-01-15T00:00:00.000Z") with currentMonth := "" }
        (.ok ["2024-03", "2024-02"])).currentMonth = "2024-03" :=
  (autoSelect_amended (initState "2024-01-15T00:00:00.000Z") "2024-01-15T00:00:00.000Z"
    ["2024-03", "2024-02"] "2024-03" ["2024-02"] (by decide) (by decide)).2.2.2

/-- C6: saveBudgets on a confirmed success copies the draft into the
confirmed map, keeps the draft as is, exits edit mode, and triggers
exactly one summary refetch; on any failing outcome, including a 2xx
response with a false success flag, the state and in particular the
draft map are left unchanged and no refetch is triggered. -/
theorem saveBudgets_spec (s : StoreState) (code : Nat) (msg : String) :
    (saveBudgets s (.okFlag true)).final.budgets = s.tempBudgets
    ∧ (saveBudgets s (.okFlag true)).final.tempBudgets = s.tempBudgets
    ∧ (saveBudgets s (.okFlag true)).final.editingBudgets = false
    ∧ (saveBudgets s (.okFlag true)).summaryRefetchCount = 1
    ∧ (saveBudgets s (.okFlag false)).final = s
    ∧ (saveBudgets s (.okFlag false)).summaryRefetchCount = 0
    ∧ (saveBudgets s (.httpError code)).final = s
    ∧ (saveBudgets s (.httpError code)).summaryRefetchCount = 0
    ∧ (saveBudgets s (.networkError msg)).final = s
    ∧ (saveBudgets s (.networkError msg)).summaryRefetchCount = 0 :=
  ⟨rfl, rfl, rfl, rfl, rfl, rfl, rfl, rfl, rfl, rfl⟩

/-- C7: a failed summary fetch leaves every data field of the store
unchanged (only the loading flag is cleared), and failed transactions,
budgets, and months fetches leave the whole state unchanged, so
previously loaded data is never cleared or replaced by a failure. -/
theorem readFailures_preserve_state (s : StoreState) (m : String) (e : FetchError) :
    (applySummaryResult s m (.error e)).summary = s.summary
    ∧ (applySummaryResult s m (.error e)).transactions = s.transactions
    ∧ (applySummaryResult s m (.error e)).budgets = s.budgets
    ∧ (applySummaryResult s m (.error e)).availableMonths = s.availableMonths
    ∧ (applySummaryResult s m (.error e)).currentMonth = s.currentMonth
    ∧ applyTransactionsResult s m (.error e) = s
    ∧ applyBudgetsResult s (.error e) = s
    ∧ applyMonthsResult s (.error e) = s :=
  ⟨rfl, rfl, rfl, rfl, rfl, rfl, rfl, rfl⟩

/-- C10: a successful budgets fetch sets both the confirmed map and the
draft map to the fetched data in the same step, so whatever draft edits
were in progress are overwritten and the two maps end up identical. -/
theorem fetchBudgets_sets_draft (s : StoreState) (data : Budgets) :
    (applyBudgetsResult s (.ok data)).budgets = data
    ∧ (applyBudgetsResult s (.ok data)).tempBudgets = data
    ∧ (applyBudgetsResult s (.ok data)).tempBudgets = (applyBudgetsResult s (.ok data)).budgets :=
  ⟨rfl, rfl, rfl⟩

theorem noAuthHeader_of_token_none (s : AuthState) (h : s.token = none) (v : String) :
    ("Authorization", v) ∉ getAuthHeaders s := by
  simp [getAuthHeaders, h]

theorem stepAuth_preserves_inv (p : AuthState × TokenStorage) (e : AuthEvent)
    (h : p.1.isAuthenticated = false → p.1.token = none) :
    (stepAuth p e).1.isAuthenticated = false → (stepAuth p e).1.token = none := by
  obtain ⟨s, st⟩ := p
  cases e with
  | loginEv t => simp [stepAuth, login]
  | logoutEv => simp [stepAuth, logout]
  | restoreEv =>
    cases st with
    | none => exact h
    | some t =>
      by_cases ht : t = ""
      · simpa [stepAuth, restore, ht] using h
      · simp [stepAuth, restore, ht]

theorem runAuth_inv (st0 : TokenStorage) (evs : List AuthEvent) :
    (runAuth st0 evs).1.isAuthenticated = false → (runAuth st0 evs).1.token = none := by
  suffices h : ∀ (p : AuthState × TokenStorage),
      (p.1.isAuthenticated = false → p.1.token = none) →
      ((evs.foldl stepAuth p).1.isAuthenticated = false →
        (evs.foldl stepAuth p).1.token = none) from
    h (initAuth, st0) (fun _ => rfl)
  induction evs with
  | nil => exact fun p hp => hp
  | cons e es ih => exact fun p hp => ih (stepAuth p e) (stepAuth_preserves_inv p e hp)

/-- C8 counterexample: after a login that stores the empty-string
token, the session is authenticated and a token is present, yet the
header set carries no Authorization entry, because the source guards
the bearer line with JS truthiness rather than mere presence. -/
theorem getAuthHeaders_empty_token_cex :
    (login initAuth none "").1.isAuthenticated = true
    ∧ (login initAuth none "").1.token = some ""
    ∧ getAuthHeaders (login initAuth none "").1 = [("Content-Type", "application/json")] := by
  refine ⟨rfl, rfl, ?_⟩
  decide

/-- C8 amended: getAuthHeaders is a pure function of the session state;
its result contains the Authorization bearer entry for the stored token
exactly when the token is non-null and nonempty, always contains the
content-type entry, and in any reachable unauthenticated session state
(where the token is necessarily absent) contains no Authorization
entry. -/
theorem getAuthHeaders_amended (s : AuthState) (st0 : TokenStorage) (evs : List AuthEvent) :
    (∀ t, s.token = some t → t ≠ "" → ("Authorization", "Bearer " ++ t) ∈ getAuthHeaders s)
    ∧ (s.token = none → ∀ v, ("Authorization", v) ∉ getAuthHeaders s)
    ∧ (s.token = some "" → ∀ v, ("Authorization", v) ∉ getAuthHeaders s)
    ∧ ("Content-Type", "application/json") ∈ getAuthHeaders s
    ∧ ((runAuth st0 evs).1.isAuthenticated = false →
        ∀ v, ("Authorization", v) ∉ getAuthHeaders (runAuth st0 evs).1) := by
  refine ⟨?_, ?_, ?_, ?_, ?_⟩
  · intro t ht hne
    simp [getAuthHeaders, ht, hne]
  · exact fun hn v => noAuthHeader_of_token_none s hn v
  · intro he v
    simp [getAuthHeaders, he]
  · cases h : s.token with
    | none => simp [getAuthHeaders, h]
    | some t =>
      by_cases ht : t = "" <;> simp [getAuthHeaders, h, ht]
  · exact fun hf v => noAuthHeader_of_token_none _ (runAuth_inv st0 evs hf) v

/-- Witness for C8 at a concrete authenticated state holding a nonempty
token. -/
theorem getAuthHeaders_amended_witness :
    ("Authorization", "Bearer abc") ∈
      getAuthHeaders { isAuthenticated := true, token := some "abc" } :=
  (getAuthHeaders_amended { isAuthenticated := true, token := some "abc" } none []).1
    "abc" rfl (by decide)

/-- C9 counterexample: with the empty string persisted under the token
key, a persisted token exists, yet the restore step leaves the initial
state unauthenticated, because the source checks JS truthiness of the
stored value rather than mere presence. -/
theorem restore_empty_token_cex :
    (some "" : TokenStorage) ≠ none
    ∧ restore initAuth (some "") = initAuth
    ∧ (restore initAuth (some "")).isAuthenticated = false := by
  refine ⟨?_, ?_, ?_⟩ <;> decide

/-- C9 amended: login moves any state to authenticated and persists the
token; logout moves any state to unauthenticated, nulls the in-memory
token, and erases the persisted one; restore, a pure read of the
persisted slot with no network call, moves the initial unauthenticated
state to authenticated with the persisted token exactly when that token
exists and is nonempty, and otherwise leaves the state unauthenticated. -/
theorem sessionMachine_amended (s : AuthState) (st : TokenStorage) (t : String)
    (ht : t ≠ "") :
    login s st t = ({ isAuthenticated := true, token := some t }, some t)
    ∧ logout s st = ({ isAuthenticated := false, token := none }, none)
    ∧ restore initAuth (some t) = { isAuthenticated := true, token := some t }
    ∧ restore initAuth none = initAuth
    ∧ restore initAuth (some "") = initAuth := by
  refine ⟨rfl, rfl, ?_, rfl, ?_⟩
  · simp [restore, ht]
  · decide

/-- Witness for C9 at a concrete nonempty persisted token. -/
theorem sessionMachine_amended_witness :
    restore initAuth (some "tok123") = { isAuthenticated := true, token := some "tok123" } :=
  (sessionMachine_amended initAuth none "tok123" (by decide)).2.2.1

end BudgetApp
